import Mathlib

/-!
Shallow embedding of the authentication / session-lifecycle core of the
examaxis-server repository, together with theorems settling the frozen
claims about its natural-language specification.

Conventions of the embedding:
* Timestamps are naturals (milliseconds since epoch, matching the JS `Date`
  values produced by `currentDate` / `addMinutes` / `addDays` in
  `src/utils/dayjs.ts`).  `dayjs(a).isAfter(b)` is strict `b < a`, and the
  MongoDB `$gt` comparison is strict as well.
* The database is explicit state: a list of users and a list of sessions.
  Prisma `update where id` is a map over the user list, `deleteMany` a
  filter, `findFirst` / `findUnique` a `List.find?`.
* External cryptographic primitives (Node `crypto` SHA-256, bcrypt) are
  modelled as deterministic injective tagging functions, which is exactly
  the contract the code relies on: deterministic digests used only for
  equality matching.
* Operations that throw (`throwError msg code`) are modelled as returning
  `Except AppError _` together with the database state at the moment the
  exception escapes, so that "creates no session", "rolls back" and similar
  effect claims can be stated about the post-error state.
-/

/-- Operational error thrown by `throwError` in `src/utils/response.ts`:
a message plus an HTTP-ish numeric code (default 500). -/
structure AppError where
  msg : String
  code : Nat
deriving Repr, DecidableEq

/-- `emailInfo` composite type on the Prisma `User`. -/
structure EmailInfo where
  isVerified : Bool
  verificationToken : Option String
  verificationExpires : Option Nat
  pendingEmail : Option String
  provider : Option String
deriving Repr, DecidableEq

/-- `passwordInfo` composite type on the Prisma `User`. -/
structure PasswordInfo where
  hash : Option String
  resetToken : Option String
  resetExpires : Option Nat
deriving Repr, DecidableEq

/-- `lockoutInfo` composite type on the Prisma `User`. -/
structure AccountLockoutInfo where
  isLocked : Bool
  lockedUntil : Option Nat
  failedAttemptCount : Nat
deriving Repr, DecidableEq

/-- The Prisma `User` record (the fields the auth core reads or writes). -/
structure User where
  id : String
  fullname : String
  email : String
  phone : Option String
  profileImage : Option String
  emailInfo : EmailInfo
  passwordInfo : PasswordInfo
  lockoutInfo : AccountLockoutInfo
  isActive : Bool
  lastLoginAt : Option Nat
deriving Repr, DecidableEq

/-- The Prisma `Session` record: `refreshToken` stores the SHA-256 hash of
the plaintext refresh token, never the plaintext. -/
structure Session where
  userId : String
  refreshToken : String
  userAgent : Option String
  ipAddress : Option String
  expiresAt : Nat
deriving Repr, DecidableEq

/-- Database state threaded through the stateful operations. -/
structure Db where
  users : List User
  sessions : List Session
deriving Repr, DecidableEq

/-- `addMinutes` from `src/utils/dayjs.ts`: now plus the minutes, in ms. -/
def addMinutes (minutes now : Nat) : Nat := now + minutes * 60000

/-- `addDays` from `src/utils/dayjs.ts`: now plus the days, in ms. -/
def addDays (days now : Nat) : Nat := now + days * 86400000

/-- `hashData` from `src/utils/crypto.ts`: SHA-256 hex digest of the input.
The digest is deterministic and used only for equality matching; it is
modelled as an injective tagging function. -/
def hashData (data : String) : String := "sha256[" ++ data ++ "]"

/-- bcrypt password hashing (`hashPassword` in `src/helpers/user.ts`).
bcrypt is an external library; it is modelled as a deterministic tag whose
only observable property is that `comparePassword` matches exactly the
hashes this function produces. -/
def hashPassword (password : String) : String := "bcrypt[" ++ password ++ "]"

/-- `comparePassword` from `src/helpers/user.ts`: false when the stored
hash is absent, otherwise the bcrypt comparison of input against hash. -/
def comparePassword (hash : Option String) (input : String) : Bool :=
  match hash with
  | none => false
  | some h => hashPassword input == h

/-- `isAccountLocked` from `src/helpers/user.ts`:
`!!(lockoutInfo.isLocked && lockoutInfo.lockedUntil && dayjs(lockedUntil).isAfter(now))`. -/
def isAccountLocked (user : User) (now : Nat) : Bool :=
  user.lockoutInfo.isLocked &&
    (match user.lockoutInfo.lockedUntil with
     | some lockedUntil => decide (now < lockedUntil)
     | none => false)

/-- The lockout state written by `incrementFailedLoginAttempts` in
`src/services/UserService.ts`: the count goes up by one; the composite is
replaced, so `lockedUntil` is only present when the threshold is reached. -/
def incrementFailedLoginAttempts (lockout : AccountLockoutInfo)
    (maxLoginAttempts loginLockTime now : Nat) : AccountLockoutInfo :=
  { failedAttemptCount := lockout.failedAttemptCount + 1
    isLocked := decide (maxLoginAttempts ≤ lockout.failedAttemptCount + 1)
    lockedUntil :=
      if maxLoginAttempts ≤ lockout.failedAttemptCount + 1 then
        some (addMinutes loginLockTime now)
      else none }

/-- The lockout state written by `resetFailedLoginAttempts` in
`src/services/UserService.ts`. -/
def resetFailedLoginAttemptsState : AccountLockoutInfo :=
  { isLocked := false, lockedUntil := none, failedAttemptCount := 0 }

/-- Prisma `user.update where id`: replace every user carrying the id. -/
def updateUser (users : List User) (userId : String) (f : User → User) :
    List User :=
  users.map (fun u => if u.id == userId then f u else u)

/-- Prisma `user.findUnique where email`. -/
def findUserByEmail (users : List User) (email : String) : Option User :=
  users.find? (fun u => u.email == email)

/-- `C3`: for every lockout state and time `now`, `isAccountLocked` returns
true iff the `isLocked` flag is set, `lockedUntil` is present, and
`lockedUntil` is strictly after `now`; in particular it returns false once
`now` has reached or passed `lockedUntil` even when `isLocked` is still
true. -/
theorem C3_isAccountLocked_iff (u : User) (now : Nat) :
    (isAccountLocked u now = true ↔
      u.lockoutInfo.isLocked = true ∧
        ∃ lu, u.lockoutInfo.lockedUntil = some lu ∧ now < lu) ∧
    ((∀ lu, u.lockoutInfo.lockedUntil = some lu → lu ≤ now) →
      isAccountLocked u now = false) := by
  constructor
  · unfold isAccountLocked
    cases h : u.lockoutInfo.lockedUntil with
    | none => simp [h]
    | some lu => simp [h]
  · intro hpast
    unfold isAccountLocked
    cases h : u.lockoutInfo.lockedUntil with
    | none => simp [h]
    | some lu =>
      have := hpast lu h
      simp [h, Nat.not_lt.mpr this]

/-- Witness for `C3_isAccountLocked_iff` at a concrete stale-locked user:
flag still true, `lockedUntil = 50`, `now = 100`. -/
def c3User : User :=
  { id := "u3", fullname := "A", email := "a@x.com", phone := none
    profileImage := none
    emailInfo := { isVerified := true, verificationToken := none
                   verificationExpires := none, pendingEmail := none
                   provider := none }
    passwordInfo := { hash := none, resetToken := none, resetExpires := none }
    lockoutInfo := { isLocked := true, lockedUntil := some 50
                     failedAttemptCount := 5 }
    isActive := true, lastLoginAt := none }

theorem C3_witness : isAccountLocked c3User 100 = false :=
  (C3_isAccountLocked_iff c3User 100).2 (by decide)

/-- `C4`: recording a failed attempt increments `failedAttemptCount` by
one; if the new count reaches `maxLoginAttempts` the state becomes locked
with `lockedUntil = now + lock duration`, otherwise `isLocked` is false. -/
theorem C4_incrementFailedLoginAttempts (lockout : AccountLockoutInfo)
    (maxA lockT now : Nat) :
    (incrementFailedLoginAttempts lockout maxA lockT now).failedAttemptCount
        = lockout.failedAttemptCount + 1 ∧
    (maxA ≤ lockout.failedAttemptCount + 1 →
      (incrementFailedLoginAttempts lockout maxA lockT now).isLocked = true ∧
      (incrementFailedLoginAttempts lockout maxA lockT now).lockedUntil
          = some (addMinutes lockT now)) ∧
    (lockout.failedAttemptCount + 1 < maxA →
      (incrementFailedLoginAttempts lockout maxA lockT now).isLocked = false) := by
  refine ⟨rfl, fun hle => ⟨?_, ?_⟩, fun hlt => ?_⟩
  · simp [incrementFailedLoginAttempts, hle]
  · simp [incrementFailedLoginAttempts, hle]
  · simp [incrementFailedLoginAttempts, Nat.not_le.mpr hlt]

/-- Witness for `C4_incrementFailedLoginAttempts` with `maxAttempts = 5`:
the fourth failure leaves the account unlocked with count 4, the fifth
locks it until `now + 30` minutes. -/
theorem C4_witness :
    (incrementFailedLoginAttempts
      { isLocked := false, lockedUntil := none, failedAttemptCount := 3 }
      5 30 1000).failedAttemptCount = 4 ∧
    (incrementFailedLoginAttempts
      { isLocked := false, lockedUntil := none, failedAttemptCount := 3 }
      5 30 1000).isLocked = false ∧
    (incrementFailedLoginAttempts
      { isLocked := false, lockedUntil := none, failedAttemptCount := 4 }
      5 30 1000).isLocked = true ∧
    (incrementFailedLoginAttempts
      { isLocked := false, lockedUntil := none, failedAttemptCount := 4 }
      5 30 1000).lockedUntil = some (addMinutes 30 1000) := by
  have h4 := C4_incrementFailedLoginAttempts
    { isLocked := false, lockedUntil := none, failedAttemptCount := 3 } 5 30 1000
  have h5 := C4_incrementFailedLoginAttempts
    { isLocked := false, lockedUntil := none, failedAttemptCount := 4 } 5 30 1000
  exact ⟨h4.1, h4.2.2 (by decide), (h5.2.1 (by decide)).1, (h5.2.1 (by decide)).2⟩

/-- The identity claims embedded into an access token by
`generateAccessToken` in `src/helpers/jwt.ts` (the signing itself is the
external jsonwebtoken library). -/
structure IJWTPayload where
  userId : String
  email : String
deriving Repr, DecidableEq

/-- Payload construction of `generateAccessToken`. -/
def generateAccessTokenPayload (user : User) : IJWTPayload :=
  { userId := user.id, email := user.email }

/-- `TokenPair` from `src/types/auth.ts`. -/
structure TokenPair where
  accessToken : IJWTPayload
  refreshToken : String
  expiresIn : String
deriving Repr, DecidableEq

/-- Error of `refreshAccessToken` when no live session matches
(`throwError` with its default code 500). -/
def errInvalidRefreshToken : AppError :=
  { msg := "Invalid or expired refresh token", code := 500 }

/-- Error of `refreshAccessToken` when the owning user is missing. -/
def errRefreshUserNotFound : AppError :=
  { msg := "User not found", code := 500 }

/-- The `session.findFirst` lookup in `refreshAccessToken`: hashed token
equality plus `expiresAt > now`. -/
def findActiveSessionByHashedToken (sessions : List Session)
    (hashedToken : String) (now : Nat) : Option Session :=
  sessions.find? (fun s => s.refreshToken == hashedToken && decide (now < s.expiresAt))

/-- `revokeRefreshToken` from `src/services/SessionService.ts`: delete the
session whose stored hash matches. -/
def deleteSessionByHashedToken (sessions : List Session)
    (hashedToken : String) : List Session :=
  sessions.filter (fun s => s.refreshToken != hashedToken)

/-- `revokeAllUserSessions` from `src/services/SessionService.ts`. -/
def revokeAllUserSessions (sessions : List Session) (userId : String) :
    List Session :=
  sessions.filter (fun s => s.userId != userId)

/-- `refreshAccessToken` from `src/services/SessionService.ts`: look up a
live session by the hash of the presented refresh token (joined with its
owning user), fail otherwise; on success delete the old session and issue
a fresh pair via `generateTokenPair`/`createSession`.  `freshToken` is the
40-byte random plaintext produced by `generateRandomString`,
`expiresInCfg` is `config.jwt.expiresIn`, `refreshExpiresDays` is
`config.jwt.refreshExpiresIn`. -/
def refreshAccessToken (db : Db) (refreshToken freshToken expiresInCfg : String)
    (refreshExpiresDays now : Nat) : Db × Except AppError TokenPair :=
  match findActiveSessionByHashedToken db.sessions (hashData refreshToken) now with
  | none => (db, Except.error errInvalidRefreshToken)
  | some session =>
    match db.users.find? (fun u => u.id == session.userId) with
    | none => (db, Except.error errRefreshUserNotFound)
    | some user =>
      (⟨db.users,
        deleteSessionByHashedToken db.sessions (hashData refreshToken) ++
          [{ userId := user.id, refreshToken := hashData freshToken
             userAgent := none, ipAddress := none
             expiresAt := addDays refreshExpiresDays now }]⟩,
       Except.ok { accessToken := generateAccessTokenPayload user
                   refreshToken := freshToken, expiresIn := expiresInCfg })

/-- SHA-256 digests only collide with negligible probability; in the model
`hashData` is injective outright. -/
theorem hashData_injective {a b : String} (h : hashData a = hashData b) :
    a = b := by
  have hd : (hashData a).data = (hashData b).data := by rw [h]
  unfold hashData at hd
  simp only [String.data_append, List.append_assoc] at hd
  have h1 := List.append_cancel_left hd
  have h2 := List.append_cancel_right h1
  cases a; cases b; exact congrArg String.mk h2

/-- `C1`: rotation succeeds only if a session whose stored hash is
`hash(t)` is live at `now`; when none matches it fails with the
invalid-or-expired error and leaves the session store untouched (no
session created); on success the old session is deleted and a fresh
access+refresh pair with a new session is issued. -/
theorem C1_refresh_rotation (db : Db) (t ft cfg : String) (d now : Nat) :
    ((refreshAccessToken db t ft cfg d now).2.isOk = true →
      ∃ s ∈ db.sessions, s.refreshToken = hashData t ∧ now < s.expiresAt) ∧
    (findActiveSessionByHashedToken db.sessions (hashData t) now = none →
      refreshAccessToken db t ft cfg d now = (db, Except.error errInvalidRefreshToken)) ∧
    (∀ s, findActiveSessionByHashedToken db.sessions (hashData t) now = some s →
      ∀ u, db.users.find? (fun x => x.id == s.userId) = some u →
      t ≠ ft →
      refreshAccessToken db t ft cfg d now
        = (⟨db.users,
            deleteSessionByHashedToken db.sessions (hashData t) ++
              [{ userId := u.id, refreshToken := hashData ft
                 userAgent := none, ipAddress := none
                 expiresAt := addDays d now }]⟩,
           Except.ok { accessToken := generateAccessTokenPayload u
                       refreshToken := ft, expiresIn := cfg }) ∧
      (∀ x ∈ (refreshAccessToken db t ft cfg d now).1.sessions,
        x.refreshToken ≠ hashData t) ∧
      (∃ x ∈ (refreshAccessToken db t ft cfg d now).1.sessions,
        x.refreshToken = hashData ft ∧ x.userId = u.id ∧
          x.expiresAt = addDays d now)) := by
  refine ⟨?_, ?_, ?_⟩
  · intro hok
    unfold refreshAccessToken at hok
    cases hs : findActiveSessionByHashedToken db.sessions (hashData t) now with
    | none => rw [hs] at hok; exact Bool.noConfusion hok
    | some s =>
      rw [hs] at hok
      unfold findActiveSessionByHashedToken at hs
      have hmem := List.mem_of_find?_eq_some hs
      have hp := List.find?_some hs
      simp only [Bool.and_eq_true, beq_iff_eq, decide_eq_true_eq] at hp
      exact ⟨s, hmem, hp.1, hp.2⟩
  · intro hnone
    unfold refreshAccessToken
    rw [hnone]
  · intro s hs u hu hne
    have heq : refreshAccessToken db t ft cfg d now
        = (⟨db.users,
            deleteSessionByHashedToken db.sessions (hashData t) ++
              [{ userId := u.id, refreshToken := hashData ft
                 userAgent := none, ipAddress := none
                 expiresAt := addDays d now }]⟩,
           Except.ok { accessToken := generateAccessTokenPayload u
                       refreshToken := ft, expiresIn := cfg }) := by
      simp only [refreshAccessToken, hs, hu]
    refine ⟨heq, ?_, ?_⟩
    · intro x hx
      rw [heq] at hx
      simp only [List.mem_append, List.mem_filter, List.mem_singleton,
        deleteSessionByHashedToken] at hx
      cases hx with
      | inl h =>
        have hb := h.2
        simp only [bne_iff_ne, ne_eq] at hb
        exact hb
      | inr h =>
        rw [h]
        intro hcol
        exact hne (hashData_injective hcol).symm
    · refine ⟨{ userId := u.id, refreshToken := hashData ft
                userAgent := none, ipAddress := none
                expiresAt := addDays d now }, ?_, rfl, rfl, rfl⟩
      rw [heq]
      simp

/-- Concrete state for the `C1` witness: one user owning one live session
for plaintext token `rt-1`. -/
def c1Tok : String := "rt-1"

def c1Fresh : String := "rt-2"

def c1Cfg : String := "15m"

def c1User : User :=
  { id := "u1", fullname := "B", email := "b@x.com", phone := none
    profileImage := none
    emailInfo := { isVerified := true, verificationToken := none
                   verificationExpires := none, pendingEmail := none
                   provider := none }
    passwordInfo := { hash := none, resetToken := none, resetExpires := none }
    lockoutInfo := { isLocked := false, lockedUntil := none
                     failedAttemptCount := 0 }
    isActive := true, lastLoginAt := none }

def c1Session : Session :=
  { userId := "u1", refreshToken := hashData c1Tok
    userAgent := none, ipAddress := none, expiresAt := 500 }

def c1Db : Db := { users := [c1User], sessions := [c1Session] }

theorem C1_witness :
    (refreshAccessToken c1Db c1Tok c1Fresh c1Cfg 7 100).2.isOk = true ∧
    (∀ x ∈ (refreshAccessToken c1Db c1Tok c1Fresh c1Cfg 7 100).1.sessions,
      x.refreshToken ≠ hashData c1Tok) ∧
    (refreshAccessToken { users := [c1User], sessions := [] }
        c1Tok c1Fresh c1Cfg 7 100).2 = Except.error errInvalidRefreshToken := by
  have h := C1_refresh_rotation c1Db c1Tok c1Fresh c1Cfg 7 100
  have hmain := h.2.2 c1Session (by decide) c1User (by decide) (by decide)
  have hempty := (C1_refresh_rotation { users := [c1User], sessions := [] }
      c1Tok c1Fresh c1Cfg 7 100).2.1 (by decide)
  refine ⟨?_, hmain.2.1, ?_⟩
  · rw [hmain.1]
    rfl
  · rw [hempty]


/-- Error of `verifyEmailWithToken` when no user matches the token. -/
def errInvalidEmailToken : AppError :=
  { msg := "Invalid or expired email verification token", code := 403 }

/-- Error of `verifyEmailWithToken` when the pending email is taken. -/
def errEmailInUse : AppError :=
  { msg := "Email address is already in use", code := 409 }

/-- Error of `resetPasswordWithToken` when no user matches the token
(`throwError` default code 500). -/
def errInvalidResetToken : AppError :=
  { msg := "Invalid or expired password reset token", code := 500 }

/-- Error of `authenticateUser` for an OAuth-only account attempting a
password login (message abbreviated, code 403 as in the source). -/
def errSocialAccount : AppError :=
  { msg := "You signed in with a social account. Please set a password using Forgot Password."
    code := 403 }

/-- Error of `authenticateUser` for an unverified email. -/
def errVerifyEmailFirst : AppError :=
  { msg := "Please verify your email before logging in", code := 403 }

/-- Error of `authenticateUser` for a locked account. -/
def errAccountLockedTemp : AppError :=
  { msg := "Account is temporarily locked due to multiple failed login attempts"
    code := 423 }

/-- The raw-Mongo filter of `verifyEmailWithToken`:
`emailInfo.verificationToken == hashedToken` and
`emailInfo.verificationExpires > now`. -/
def matchesVerificationToken (u : User) (hashedToken : String) (now : Nat) : Bool :=
  u.emailInfo.verificationToken == some hashedToken &&
    (match u.emailInfo.verificationExpires with
     | some e => decide (now < e)
     | none => false)

def findUserByVerificationToken (users : List User) (hashedToken : String)
    (now : Nat) : Option User :=
  users.find? (fun u => matchesVerificationToken u hashedToken now)

/-- The raw-Mongo filter of `resetPasswordWithToken`:
`passwordInfo.resetToken == hashedToken` and
`passwordInfo.resetExpires > now`. -/
def matchesResetToken (u : User) (hashedToken : String) (now : Nat) : Bool :=
  u.passwordInfo.resetToken == some hashedToken &&
    (match u.passwordInfo.resetExpires with
     | some e => decide (now < e)
     | none => false)

def findUserByResetToken (users : List User) (hashedToken : String)
    (now : Nat) : Option User :=
  users.find? (fun u => matchesResetToken u hashedToken now)

/-- The single `user.update` issued by `verifyEmailWithToken`: promote a
pending email to canonical if present, and replace `emailInfo` by a
composite that is verified with the token fields cleared (keeping only the
provider from the matched document). -/
def verifyEmailApply (userDoc : User) (u : User) : User :=
  { u with
    email := userDoc.emailInfo.pendingEmail.getD u.email
    emailInfo := { isVerified := true, verificationToken := none
                   verificationExpires := none, pendingEmail := none
                   provider := userDoc.emailInfo.provider } }

/-- The email-change conflict check inside `verifyEmailWithToken`: the
pending email is already another account's canonical address. -/
def pendingEmailTaken (users : List User) (userDoc : User) : Bool :=
  match userDoc.emailInfo.pendingEmail with
  | some pendingEmail =>
    (users.find? (fun u => u.email == pendingEmail && u.id != userDoc.id)).isSome
  | none => false

/-- `verifyEmailWithToken` from `src/services/UserService.ts`. -/
def verifyEmailWithToken (users : List User) (token : String) (now : Nat) :
    List User × Except AppError (User × Bool) :=
  match findUserByVerificationToken users (hashData token) now with
  | none => (users, Except.error errInvalidEmailToken)
  | some userDoc =>
    if pendingEmailTaken users userDoc then (users, Except.error errEmailInUse)
    else
      (updateUser users userDoc.id (verifyEmailApply userDoc),
       Except.ok (verifyEmailApply userDoc userDoc, !userDoc.emailInfo.isVerified))

/-- The single `user.update` issued by `resetPasswordWithToken`: new
password hash with reset fields cleared; unlock and zero the counter only
when the matched document's `isLocked` flag was set; mark verified and
clear verification fields only when the email was unverified.  Every
composite is computed from the matched document, as in the source. -/
def resetPasswordApply (userDoc : User) (newPassword : String) (u : User) : User :=
  { u with
    passwordInfo := { hash := some (hashPassword newPassword)
                      resetToken := none, resetExpires := none }
    lockoutInfo :=
      if userDoc.lockoutInfo.isLocked then
        { isLocked := false, lockedUntil := none, failedAttemptCount := 0 }
      else userDoc.lockoutInfo
    emailInfo :=
      if userDoc.emailInfo.isVerified then userDoc.emailInfo
      else { isVerified := true, verificationToken := none
             verificationExpires := none
             pendingEmail := userDoc.emailInfo.pendingEmail
             provider := userDoc.emailInfo.provider } }

/-- `resetPasswordWithToken` from `src/services/UserService.ts`: find the
user by hashed reset token with a live expiry, apply the update above, and
revoke all of the account's sessions. -/
def resetPasswordWithToken (db : Db) (token newPassword : String) (now : Nat) :
    Db × Except AppError Unit :=
  match findUserByResetToken db.users (hashData token) now with
  | none => (db, Except.error errInvalidResetToken)
  | some userDoc =>
    ({ users := updateUser db.users userDoc.id (resetPasswordApply userDoc newPassword)
       sessions := revokeAllUserSessions db.sessions userDoc.id },
     Except.ok ())

/-- `authenticateUser` from `src/services/UserService.ts`.  Returns the
user list after any lockout/lastLogin updates together with the
`{user, isValid}` result (or the thrown error). -/
def authenticateUser (users : List User) (email password : String)
    (maxLoginAttempts loginLockTime now : Nat) :
    List User × Except AppError (Option User × Bool) :=
  match findUserByEmail users email with
  | none => (users, Except.ok (none, false))
  | some user =>
    if user.emailInfo.provider.isSome && user.passwordInfo.hash.isNone then
      (users, Except.error errSocialAccount)
    else if !user.emailInfo.isVerified then
      (users, Except.error errVerifyEmailFirst)
    else if isAccountLocked user now then
      (users, Except.error errAccountLockedTemp)
    else if !comparePassword user.passwordInfo.hash password then
      (updateUser users user.id (fun u =>
        { u with lockoutInfo :=
            incrementFailedLoginAttempts user.lockoutInfo maxLoginAttempts loginLockTime now })
      , Except.ok (some user, false))
    else
      let users1 :=
        if 0 < user.lockoutInfo.failedAttemptCount then
          updateUser users user.id (fun u => { u with lockoutInfo := resetFailedLoginAttemptsState })
        else users
      (updateUser users1 user.id (fun u => { u with lastLoginAt := some now })
      , Except.ok (some user, true))

/-- Membership in an `updateUser` result comes from a member of the
original list, either rewritten (id matches) or untouched. -/
theorem mem_updateUser {users : List User} {userId : String} {f : User → User}
    {x : User} (hx : x ∈ updateUser users userId f) :
    ∃ u ∈ users, x = (if u.id == userId then f u else u) := by
  unfold updateUser at hx
  obtain ⟨u, hu, hxu⟩ := List.mem_map.mp hx
  exact ⟨u, hu, hxu.symm⟩

/-- A member of an `updateUser` result whose id equals the targeted id is
the image under the update of an original member with that id. -/
theorem mem_updateUser_of_id {users : List User} {userId : String}
    {f : User → User} {x : User} (hx : x ∈ updateUser users userId f)
    (hid : x.id = userId) :
    ∃ y ∈ users, (y.id == userId) = true ∧ x = f y := by
  obtain ⟨y, hy, hxy⟩ := mem_updateUser hx
  by_cases hyid : (y.id == userId) = true
  · rw [if_pos hyid] at hxy
    exact ⟨y, hy, hyid, hxy⟩
  · rw [if_neg hyid] at hxy
    subst hxy
    simp only [beq_iff_eq] at hyid
    exact absurd hid hyid

/-- Once `lockedUntil` has passed (or is absent), the derived lock check
is false whatever the stored flag says. -/
theorem isAccountLocked_eq_false_of_past {u : User} {now : Nat}
    (hpast : ∀ lu, u.lockoutInfo.lockedUntil = some lu → lu ≤ now) :
    isAccountLocked u now = false := by
  unfold isAccountLocked
  cases h : u.lockoutInfo.lockedUntil with
  | none => simp [h]
  | some lu =>
    have := hpast lu h
    simp [h, Nat.not_lt.mpr this]

/-- Reduction of `resetPasswordWithToken` when the token lookup hits. -/
theorem resetPassword_run_eq {db : Db} {token : String}
    (newPassword : String) {now : Nat} {userDoc : User}
    (hfind : findUserByResetToken db.users (hashData token) now = some userDoc) :
    resetPasswordWithToken db token newPassword now
      = ({ users := updateUser db.users userDoc.id (resetPasswordApply userDoc newPassword)
           sessions := revokeAllUserSessions db.sessions userDoc.id },
         Except.ok ()) := by
  simp only [resetPasswordWithToken, hfind]

/-- `C5`: a successful token-matched password reset stores the hash of the
new password, clears the reset-token fields, unlocks and zeroes the
attempt counter when the account was flagged locked, marks the email
verified and clears the verification-token fields when it was unverified,
and revokes every session of the account. -/
theorem C5_resetPassword_effects (db : Db) (token newPassword : String)
    (now : Nat) (u : User)
    (hfind : findUserByResetToken db.users (hashData token) now = some u) :
    (resetPasswordWithToken db token newPassword now).2 = Except.ok () ∧
    (∀ x ∈ (resetPasswordWithToken db token newPassword now).1.users,
      x.id = u.id →
      x.passwordInfo.hash = some (hashPassword newPassword) ∧
      x.passwordInfo.resetToken = none ∧
      x.passwordInfo.resetExpires = none ∧
      (u.lockoutInfo.isLocked = true →
        x.lockoutInfo
          = { isLocked := false, lockedUntil := none, failedAttemptCount := 0 }) ∧
      (u.emailInfo.isVerified = false →
        x.emailInfo.isVerified = true ∧
        x.emailInfo.verificationToken = none ∧
        x.emailInfo.verificationExpires = none)) ∧
    (∀ s ∈ (resetPasswordWithToken db token newPassword now).1.sessions,
      s.userId ≠ u.id) := by
  have heq := resetPassword_run_eq newPassword hfind
  refine ⟨by rw [heq], ?_, ?_⟩
  · intro x hx hid
    rw [heq] at hx
    obtain ⟨y, hy, hyid, hxy⟩ := mem_updateUser_of_id hx hid
    subst hxy
    refine ⟨rfl, rfl, rfl, ?_, ?_⟩
    · intro hlocked
      simp [resetPasswordApply, hlocked]
    · intro hunver
      simp [resetPasswordApply, hunver]
  · intro s hs
    rw [heq] at hs
    unfold revokeAllUserSessions at hs
    have hb := (List.mem_filter.mp hs).2
    simpa [bne_iff_ne] using hb

/-- Concrete state for the `C5` witness: locked, unverified user with a
live reset token and one session. -/
def c5VTok : String := "vtok5"

def c5RTok : String := "rtok5"

def c5OldPw : String := "OldPass"

def c5NewPw : String := "NewPass1"

def c5Rt : String := "rt5"

def c5User : User :=
  { id := "u5", fullname := "C", email := "c@x.com", phone := none
    profileImage := none
    emailInfo := { isVerified := false, verificationToken := some (hashData c5VTok)
                   verificationExpires := some 900, pendingEmail := none
                   provider := none }
    passwordInfo := { hash := some (hashPassword c5OldPw)
                      resetToken := some (hashData c5RTok)
                      resetExpires := some 900 }
    lockoutInfo := { isLocked := true, lockedUntil := some 800
                     failedAttemptCount := 5 }
    isActive := true, lastLoginAt := none }

def c5Db : Db :=
  { users := [c5User]
    sessions := [{ userId := "u5", refreshToken := hashData c5Rt
                   userAgent := none, ipAddress := none, expiresAt := 900 }] }

theorem C5_witness :
    (resetPasswordWithToken c5Db c5RTok c5NewPw 100).2 = Except.ok () ∧
    (∀ x ∈ (resetPasswordWithToken c5Db c5RTok c5NewPw 100).1.users,
      x.id = "u5" →
      x.passwordInfo.hash = some (hashPassword c5NewPw) ∧
      x.lockoutInfo
        = { isLocked := false, lockedUntil := none, failedAttemptCount := 0 } ∧
      x.emailInfo.isVerified = true) ∧
    (∀ s ∈ (resetPasswordWithToken c5Db c5RTok c5NewPw 100).1.sessions,
      s.userId ≠ "u5") := by
  have h := C5_resetPassword_effects c5Db c5RTok c5NewPw 100 c5User (by decide)
  refine ⟨h.1, ?_, ?_⟩
  · intro x hx hid
    have hc := h.2.1 x hx (by rw [hid]; rfl)
    exact ⟨hc.1, hc.2.2.2.1 (by decide), (hc.2.2.2.2 (by decide)).1⟩
  · intro s hs
    have := h.2.2 s hs
    simpa using this

/-- `C2`: the consuming operations clear the stored token hash and expiry
in the same update that applies the token's effect, so — provided the
hashed token identifies a single account, which random tokens do —
consuming the same plaintext a second time fails. -/
theorem C2_tokens_single_use :
    (∀ users (token : String) (now : Nat) users2 r,
      verifyEmailWithToken users token now = (users2, Except.ok r) →
      (∀ u ∈ users, matchesVerificationToken u (hashData token) now = true →
        u.id = r.1.id) →
      (r.1.emailInfo.isVerified = true ∧
       r.1.emailInfo.verificationToken = none ∧
       r.1.emailInfo.verificationExpires = none) ∧
      (verifyEmailWithToken users2 token now).2
        = Except.error errInvalidEmailToken) ∧
    (∀ db (token newPassword : String) (now : Nat) db2,
      resetPasswordWithToken db token newPassword now = (db2, Except.ok ()) →
      (∀ u ∈ db.users, matchesResetToken u (hashData token) now = true →
        ∀ v ∈ db.users, matchesResetToken v (hashData token) now = true →
          u.id = v.id) →
      (∀ x ∈ db2.users, matchesResetToken x (hashData token) now = false) ∧
      (resetPasswordWithToken db2 token newPassword now).2
        = Except.error errInvalidResetToken) := by
  constructor
  · intro users token now users2 r hrun huniq
    unfold verifyEmailWithToken at hrun
    cases hfind : findUserByVerificationToken users (hashData token) now with
    | none => rw [hfind] at hrun; simp at hrun
    | some userDoc =>
      rw [hfind] at hrun
      dsimp only at hrun
      by_cases hpt : pendingEmailTaken users userDoc = true
      · rw [if_pos hpt] at hrun; simp at hrun
      · rw [if_neg hpt] at hrun
        rw [Prod.mk.injEq] at hrun
        obtain ⟨husers, hok⟩ := hrun
        have hr := Except.ok.inj hok
        subst hr
        subst husers
        refine ⟨⟨rfl, rfl, rfl⟩, ?_⟩
        have hnone : findUserByVerificationToken
            (updateUser users userDoc.id (verifyEmailApply userDoc))
            (hashData token) now = none := by
          unfold findUserByVerificationToken
          rw [List.find?_eq_none]
          intro x hx
          obtain ⟨y, hy, hxy⟩ := mem_updateUser hx
          by_cases hyid : (y.id == userDoc.id) = true
          · rw [if_pos hyid] at hxy
            subst hxy
            simp [matchesVerificationToken, verifyEmailApply]
          · rw [if_neg hyid] at hxy
            subst hxy
            intro hmatch
            have hid := huniq x hy hmatch
            simp only [beq_iff_eq] at hyid
            exact hyid hid
        unfold verifyEmailWithToken
        rw [hnone]
  · intro db token newPassword now db2 hrun huniq
    unfold resetPasswordWithToken at hrun
    cases hfind : findUserByResetToken db.users (hashData token) now with
    | none => rw [hfind] at hrun; simp at hrun
    | some userDoc =>
      rw [hfind] at hrun
      rw [Prod.mk.injEq] at hrun
      obtain ⟨hdb, -⟩ := hrun
      subst hdb
      have hfind2 : db.users.find?
          (fun u => matchesResetToken u (hashData token) now) = some userDoc := hfind
      have hmem := List.mem_of_find?_eq_some hfind2
      have hmatch := List.find?_some hfind2
      have hall : ∀ x ∈ updateUser db.users userDoc.id
          (resetPasswordApply userDoc newPassword),
          matchesResetToken x (hashData token) now = false := by
        intro x hx
        obtain ⟨y, hy, hxy⟩ := mem_updateUser hx
        by_cases hyid : (y.id == userDoc.id) = true
        · rw [if_pos hyid] at hxy
          subst hxy
          simp [matchesResetToken, resetPasswordApply]
        · rw [if_neg hyid] at hxy
          subst hxy
          cases hmy : matchesResetToken x (hashData token) now with
          | false => rfl
          | true =>
            have hxid := huniq x hy hmy userDoc hmem hmatch
            simp only [beq_iff_eq] at hyid
            exact absurd hxid hyid
      refine ⟨hall, ?_⟩
      have hnone : findUserByResetToken
          (updateUser db.users userDoc.id (resetPasswordApply userDoc newPassword))
          (hashData token) now = none := by
        unfold findUserByResetToken
        rw [List.find?_eq_none]
        intro x hx
        simp [hall x hx]
      unfold resetPasswordWithToken
      dsimp only
      rw [hnone]

/-- Concrete state for the `C2` witness: one unverified user holding a
live email-verification token, and one user holding a live reset token. -/
def c2VTok : String := "vt2"

def c2RTok : String := "rt2x"

def c2NewPw : String := "Fresh1"

def c2VUser : User :=
  { id := "u2a", fullname := "D", email := "d@x.com", phone := none
    profileImage := none
    emailInfo := { isVerified := false, verificationToken := some (hashData c2VTok)
                   verificationExpires := some 300, pendingEmail := none
                   provider := none }
    passwordInfo := { hash := none, resetToken := none, resetExpires := none }
    lockoutInfo := { isLocked := false, lockedUntil := none
                     failedAttemptCount := 0 }
    isActive := true, lastLoginAt := none }

def c2RUser : User :=
  { id := "u2b", fullname := "E", email := "e@x.com", phone := none
    profileImage := none
    emailInfo := { isVerified := true, verificationToken := none
                   verificationExpires := none, pendingEmail := none
                   provider := none }
    passwordInfo := { hash := some (hashPassword c2NewPw)
                      resetToken := some (hashData c2RTok)
                      resetExpires := some 300 }
    lockoutInfo := { isLocked := false, lockedUntil := none
                     failedAttemptCount := 0 }
    isActive := true, lastLoginAt := none }

def c2Db : Db := { users := [c2RUser], sessions := [] }

theorem C2_witness :
    (verifyEmailWithToken
        (verifyEmailWithToken [c2VUser] c2VTok 100).1 c2VTok 100).2
      = Except.error errInvalidEmailToken ∧
    (resetPasswordWithToken
        (resetPasswordWithToken c2Db c2RTok c2NewPw 100).1 c2RTok c2NewPw 100).2
      = Except.error errInvalidResetToken := by
  have h1 := C2_tokens_single_use.1 [c2VUser] c2VTok 100
      (verifyEmailWithToken [c2VUser] c2VTok 100).1
      (verifyEmailApply c2VUser c2VUser, true) rfl (by decide)
  have h2 := C2_tokens_single_use.2 c2Db c2RTok c2NewPw 100
      (resetPasswordWithToken c2Db c2RTok c2NewPw 100).1 rfl (by decide)
  exact ⟨h1.2, h2.2⟩

/-- Concrete state refuting `C6`: an *unlocked* account with
`failedAttemptCount = 3` and a live reset token. -/
def c6Tok : String := "rtok6"

def c6NewPw : String := "NewPass2"

def c6User : User :=
  { id := "u6", fullname := "F", email := "f@x.com", phone := none
    profileImage := none
    emailInfo := { isVerified := true, verificationToken := none
                   verificationExpires := none, pendingEmail := none
                   provider := none }
    passwordInfo := { hash := some (hashPassword c6NewPw)
                      resetToken := some (hashData c6Tok)
                      resetExpires := some 200 }
    lockoutInfo := { isLocked := false, lockedUntil := none
                     failedAttemptCount := 3 }
    isActive := true, lastLoginAt := none }

def c6Db : Db := { users := [c6User], sessions := [] }

/-- `C6` counterexample: a successful password reset on an unlocked
account with `failedAttemptCount = 3` leaves the counter at 3, not 0 —
the reset only zeroes the counter when the `isLocked` flag was set. -/
theorem C6_counterexample :
    (resetPasswordWithToken c6Db c6Tok c6NewPw 100).2.isOk = true ∧
    ∀ x ∈ (resetPasswordWithToken c6Db c6Tok c6NewPw 100).1.users,
      x.lockoutInfo.failedAttemptCount = 3 := by decide

/-- `C6` amended: `failedAttemptCount` is reset to 0 by any successful
password authentication; a successful password reset zeroes it only when
the account's `isLocked` flag was set, and otherwise leaves it
unchanged. -/
theorem C6_amended_failed_count :
    (∀ users (email password : String) (maxA lockT now : Nat) users2 u,
      authenticateUser users email password maxA lockT now
        = (users2, Except.ok (some u, true)) →
      (∀ a ∈ users, ∀ b ∈ users, a.id = b.id → a = b) →
      ∀ x ∈ users2, x.id = u.id → x.lockoutInfo.failedAttemptCount = 0) ∧
    (∀ db (token newPassword : String) (now : Nat) u,
      findUserByResetToken db.users (hashData token) now = some u →
      ∀ x ∈ (resetPasswordWithToken db token newPassword now).1.users,
        x.id = u.id →
        (u.lockoutInfo.isLocked = true →
          x.lockoutInfo.failedAttemptCount = 0) ∧
        (u.lockoutInfo.isLocked = false →
          x.lockoutInfo.failedAttemptCount
            = u.lockoutInfo.failedAttemptCount)) := by
  constructor
  · intro users email password maxA lockT now users2 u hrun huniq
    unfold authenticateUser at hrun
    cases hfindu : findUserByEmail users email with
    | none => rw [hfindu] at hrun; simp at hrun
    | some user =>
      rw [hfindu] at hrun
      dsimp only at hrun
      by_cases h1 : (user.emailInfo.provider.isSome && user.passwordInfo.hash.isNone) = true
      · rw [if_pos h1] at hrun; simp at hrun
      · rw [if_neg h1] at hrun
        by_cases h2 : (!user.emailInfo.isVerified) = true
        · rw [if_pos h2] at hrun; simp at hrun
        · rw [if_neg h2] at hrun
          by_cases h3 : isAccountLocked user now = true
          · rw [if_pos h3] at hrun; simp at hrun
          · rw [if_neg h3] at hrun
            by_cases h4 : (!comparePassword user.passwordInfo.hash password) = true
            · rw [if_pos h4] at hrun; simp at hrun
            · rw [if_neg h4] at hrun
              rw [Prod.mk.injEq] at hrun
              obtain ⟨husers, hok⟩ := hrun
              have hpair := Except.ok.inj hok
              have huu : user = u := Option.some.inj (congrArg Prod.fst hpair)
              subst huu
              subst husers
              intro x hx hid
              obtain ⟨y, hy, hyid, hxy⟩ := mem_updateUser_of_id hx hid
              subst hxy
              show y.lockoutInfo.failedAttemptCount = 0
              by_cases h5 : 0 < user.lockoutInfo.failedAttemptCount
              · rw [if_pos h5] at hy
                obtain ⟨z, hz, hzy⟩ := mem_updateUser hy
                by_cases hzid : (z.id == user.id) = true
                · rw [if_pos hzid] at hzy
                  subst hzy
                  rfl
                · rw [if_neg hzid] at hzy
                  subst hzy
                  exact absurd hyid (by simpa using hzid)
              · rw [if_neg h5] at hy
                have husermem : user ∈ users := by
                  have hfindu2 : users.find? (fun v => v.email == email) = some user := hfindu
                  exact List.mem_of_find?_eq_some hfindu2
                have hyeq : y = user := by
                  apply huniq y hy user husermem
                  simpa using hyid
                subst hyeq
                exact Nat.eq_zero_of_not_pos h5
  · intro db token newPassword now u hfind x hx hid
    have heq := resetPassword_run_eq newPassword hfind
    rw [heq] at hx
    obtain ⟨y, hy, hyid, hxy⟩ := mem_updateUser_of_id hx hid
    subst hxy
    constructor
    · intro hlocked
      simp [resetPasswordApply, hlocked]
    · intro hunlocked
      simp [resetPasswordApply, hunlocked]

/-- Concrete state for the `C6` amended-claim witness: a successful login
with two prior failures, and the unlocked reset of `c6User`. -/
def c6AEmail : String := "g@x.com"

def c6APw : String := "GoodPw1"

def c6AUser : User :=
  { id := "u6a", fullname := "G", email := c6AEmail, phone := none
    profileImage := none
    emailInfo := { isVerified := true, verificationToken := none
                   verificationExpires := none, pendingEmail := none
                   provider := none }
    passwordInfo := { hash := some (hashPassword c6APw)
                      resetToken := none, resetExpires := none }
    lockoutInfo := { isLocked := false, lockedUntil := none
                     failedAttemptCount := 2 }
    isActive := true, lastLoginAt := none }

def c6AUserAfter : User :=
  { c6AUser with
    lockoutInfo := resetFailedLoginAttemptsState
    lastLoginAt := some 100 }

def c6UserAfter : User := resetPasswordApply c6User c6NewPw c6User

theorem C6_amended_witness :
    c6AUserAfter.lockoutInfo.failedAttemptCount = 0 ∧
    c6UserAfter.lockoutInfo.failedAttemptCount = 3 := by
  have h1 := C6_amended_failed_count.1 [c6AUser] c6AEmail c6APw 5 30 100
      (authenticateUser [c6AUser] c6AEmail c6APw 5 30 100).1 c6AUser rfl
      (by decide) c6AUserAfter (by decide) (by decide)
  have h2 := C6_amended_failed_count.2 c6Db c6Tok c6NewPw 100 c6User
      (by decide) c6UserAfter (by decide) (by decide)
  exact ⟨h1, (h2.2 (by decide)).trans (by decide)⟩

/-- `C10`: lock expiry never resets the counter — when the counter has
reached the threshold but `lockedUntil` has passed, the lock check is
false so the login attempt proceeds, and one further wrong password
immediately re-locks the account with a fresh future `lockedUntil`. -/
theorem C10_relock_after_expiry (users : List User) (email password : String)
    (maxA lockT now : Nat) (u : User)
    (hfind : findUserByEmail users email = some u)
    (hnosocial : (u.emailInfo.provider.isSome && u.passwordInfo.hash.isNone) = false)
    (hver : u.emailInfo.isVerified = true)
    (hmax : maxA ≤ u.lockoutInfo.failedAttemptCount)
    (hpast : ∀ lu, u.lockoutInfo.lockedUntil = some lu → lu ≤ now)
    (hwrong : comparePassword u.passwordInfo.hash password = false)
    (hlockT : 0 < lockT) :
    isAccountLocked u now = false ∧
    (authenticateUser users email password maxA lockT now).2
      = Except.ok (some u, false) ∧
    (∀ x ∈ (authenticateUser users email password maxA lockT now).1,
      x.id = u.id →
      x.lockoutInfo.isLocked = true ∧
      x.lockoutInfo.failedAttemptCount = u.lockoutInfo.failedAttemptCount + 1 ∧
      x.lockoutInfo.lockedUntil = some (addMinutes lockT now) ∧
      now < addMinutes lockT now) := by
  have hnl := isAccountLocked_eq_false_of_past hpast
  have heq : authenticateUser users email password maxA lockT now
      = (updateUser users u.id (fun y =>
          { y with lockoutInfo :=
              incrementFailedLoginAttempts u.lockoutInfo maxA lockT now }),
         Except.ok (some u, false)) := by
    unfold authenticateUser
    rw [hfind]
    dsimp only
    rw [hnosocial, hver, hnl, hwrong]
    simp
  have hthresh : maxA ≤ u.lockoutInfo.failedAttemptCount + 1 :=
    Nat.le_trans hmax (Nat.le_succ _)
  refine ⟨hnl, by rw [heq], ?_⟩
  intro x hx hid
  rw [heq] at hx
  obtain ⟨y, hy, hyid, hxy⟩ := mem_updateUser_of_id hx hid
  subst hxy
  refine ⟨?_, rfl, ?_, ?_⟩
  · simp [incrementFailedLoginAttempts, hthresh]
  · simp [incrementFailedLoginAttempts, hthresh]
  · exact Nat.lt_add_of_pos_right (Nat.mul_pos hlockT (by decide))

/-- Concrete state for the `C10` witness: threshold reached, lock expired,
stale flag still true, one more wrong password at `now = 100`. -/
def c10Email : String := "h@x.com"

def c10Pw : String := "Pw10"

def c10Wrong : String := "WrongPw"

def c10User : User :=
  { id := "u10", fullname := "H", email := c10Email, phone := none
    profileImage := none
    emailInfo := { isVerified := true, verificationToken := none
                   verificationExpires := none, pendingEmail := none
                   provider := none }
    passwordInfo := { hash := some (hashPassword c10Pw)
                      resetToken := none, resetExpires := none }
    lockoutInfo := { isLocked := true, lockedUntil := some 50
                     failedAttemptCount := 5 }
    isActive := true, lastLoginAt := none }

def c10UserAfter : User :=
  { c10User with
    lockoutInfo := incrementFailedLoginAttempts c10User.lockoutInfo 5 30 100 }

theorem C10_witness :
    isAccountLocked c10User 100 = false ∧
    (authenticateUser [c10User] c10Email c10Wrong 5 30 100).2
      = Except.ok (some c10User, false) ∧
    c10UserAfter.lockoutInfo.isLocked = true ∧
    c10UserAfter.lockoutInfo.failedAttemptCount = 6 ∧
    c10UserAfter.lockoutInfo.lockedUntil = some (addMinutes 30 100) := by
  have h := C10_relock_after_expiry [c10User] c10Email c10Wrong 5 30 100 c10User
      (by decide) (by decide) (by decide) (by decide) (by decide) (by decide)
      (by decide)
  have h3 := h.2.2 c10UserAfter (by decide) (by decide)
  exact ⟨h.1, h.2.1, h3.1, h3.2.1, h3.2.2.1⟩

/-- Outcome of the external jsonwebtoken `verify` call, by error class:
`TokenExpiredError`, `NotBeforeError`, plain `JsonWebTokenError`
(malformed token, wrong signature, wrong issuer or audience), or any
other thrown value.  The repository's own code is the catch-block mapping
below. -/
inductive JwtVerifyOutcome where
  | ok (payload : IJWTPayload)
  | tokenExpired
  | notBefore
  | jsonWebTokenError
  | otherError
deriving Repr, DecidableEq

def errAccessExpired : AppError :=
  { msg := "Access token has expired", code := 401 }

def errAccessNotYetValid : AppError :=
  { msg := "Access token not yet valid", code := 401 }

def errAccessInvalid : AppError :=
  { msg := "Invalid access token", code := 401 }

def errAccessFallback : AppError :=
  { msg := "Invalid or expired access token", code := 401 }

/-- `verifyAccessToken` from `src/helpers/jwt.ts`: the catch block maps
each jsonwebtoken error class to its own 401 error message. -/
def verifyAccessToken (outcome : JwtVerifyOutcome) :
    Except AppError IJWTPayload :=
  match outcome with
  | JwtVerifyOutcome.ok payload => Except.ok payload
  | JwtVerifyOutcome.tokenExpired => Except.error errAccessExpired
  | JwtVerifyOutcome.notBefore => Except.error errAccessNotYetValid
  | JwtVerifyOutcome.jsonWebTokenError => Except.error errAccessInvalid
  | JwtVerifyOutcome.otherError => Except.error errAccessFallback

/-- `C7` counterexample: an expired token and a malformed/bad-signature
token fail with *different* error messages ("Access token has expired"
vs "Invalid access token"), so callers can distinguish the sub-reason —
there is no single generic invalid-or-expired error. -/
theorem C7_counterexample :
    verifyAccessToken JwtVerifyOutcome.tokenExpired
      = Except.error errAccessExpired ∧
    verifyAccessToken JwtVerifyOutcome.jsonWebTokenError
      = Except.error errAccessInvalid ∧
    errAccessExpired ≠ errAccessInvalid :=
  ⟨rfl, rfl, by decide⟩

/-- `C7` amended: every validation failure is rejected with HTTP code 401,
but with a sub-reason-specific message (expired / not-yet-valid /
invalid / fallback), so callers can distinguish the sub-reason from the
message. -/
theorem C7_amended_distinct_401 (o : JwtVerifyOutcome)
    (hfail : ∀ p, o ≠ JwtVerifyOutcome.ok p) :
    (∃ e, verifyAccessToken o = Except.error e ∧ e.code = 401) ∧
    verifyAccessToken JwtVerifyOutcome.tokenExpired
      = Except.error errAccessExpired ∧
    verifyAccessToken JwtVerifyOutcome.notBefore
      = Except.error errAccessNotYetValid ∧
    verifyAccessToken JwtVerifyOutcome.jsonWebTokenError
      = Except.error errAccessInvalid ∧
    verifyAccessToken JwtVerifyOutcome.otherError
      = Except.error errAccessFallback := by
  refine ⟨?_, rfl, rfl, rfl, rfl⟩
  cases o with
  | ok p => exact absurd rfl (hfail p)
  | tokenExpired => exact ⟨errAccessExpired, rfl, rfl⟩
  | notBefore => exact ⟨errAccessNotYetValid, rfl, rfl⟩
  | jsonWebTokenError => exact ⟨errAccessInvalid, rfl, rfl⟩
  | otherError => exact ⟨errAccessFallback, rfl, rfl⟩

theorem C7_amended_witness :
    ∃ e, verifyAccessToken JwtVerifyOutcome.tokenExpired = Except.error e ∧
      e.code = 401 :=
  (C7_amended_distinct_401 JwtVerifyOutcome.tokenExpired
    (fun _ hp => JwtVerifyOutcome.noConfusion hp)).1

/-- `UpdateUserProfile` from `src/types/user.ts`. -/
structure UpdateUserProfile where
  fullname : Option String
  phone : Option String
  email : Option String
  password : Option String
  redirectUrl : Option String
deriving Repr, DecidableEq

/-- `UserExistsResult` from `src/types/user.ts`; `matchedEmail` stands for
the discriminating `field` being "email" rather than "phone". -/
inductive UserExistsResult where
  | absent
  | found (user : User) (matchedEmail : Bool)
deriving Repr, DecidableEq

def errEmailTaken : AppError := { msg := "Email is already taken", code := 409 }

def errPhoneTaken : AppError :=
  { msg := "Phone number is already taken", code := 409 }

def errUserNotFoundOrVerified : AppError :=
  { msg := "User not found or already verified", code := 404 }

/-- `sendEmail`'s failure (`src/services/EmailService.ts` catches the
transport error and throws this, default code 500). -/
def errEmailSendFailed : AppError := { msg := "Failed to send email", code := 500 }

def msgProfileUpdated : String := "Profile updated successfully"

def msgEmailChangeSent : String :=
  "Profile updated. Verification email sent to your new email address."

def msgPasswordUpdated : String := "Password updated successfully"

/-- `checkUserExists` from `src/services/UserService.ts`. -/
def checkUserExists (users : List User) (email phone : Option String)
    (excludeId : Option String) : UserExistsResult :=
  if email.isNone && phone.isNone then UserExistsResult.absent
  else
    match users.find? (fun u =>
      ((match email with | some e => u.email == e | none => false) ||
       (match phone with | some p => u.phone == some p | none => false)) &&
      (match excludeId with | some uid => u.id != uid | none => true)) with
    | none => UserExistsResult.absent
    | some u =>
      UserExistsResult.found u
        (match email with | some e => u.email == e | none => false)

/-- `deleteUnverifiedUser` from `src/services/UserService.ts`: conditional
delete; 404 when nothing was deleted. -/
def deleteUnverifiedUser (users : List User) (userId : String) :
    List User × Except AppError Unit :=
  let remaining := users.filter (fun u => !(u.id == userId && !u.emailInfo.isVerified))
  if remaining.length == users.length then
    (users, Except.error errUserNotFoundOrVerified)
  else (remaining, Except.ok ())

/-- The email/phone conflict check at the top of `updateUserProfile`:
conflict with a verified account is a 409, an unverified conflicting
account is deleted first. -/
def conflictPhase (users : List User) (user : User)
    (updates : UpdateUserProfile) : List User × Except AppError Unit :=
  if updates.email.isSome || updates.phone.isSome then
    match checkUserExists users updates.email updates.phone (some user.id) with
    | UserExistsResult.found existing matchedEmail =>
      if existing.emailInfo.isVerified then
        (users, Except.error (if matchedEmail then errEmailTaken else errPhoneTaken))
      else deleteUnverifiedUser users existing.id
    | UserExistsResult.absent => (users, Except.ok ())
  else (users, Except.ok ())

/-- The email-change branch of `updateUserProfile`: stage
`pendingEmail` plus a fresh verification token, send the verification
mail, and on send failure roll the three fields back to null and rethrow.
`emailSendFails` is the outcome of the external email collaborator.
All composites are computed from the `user` argument captured at entry,
as in the source. -/
def emailPhase (users : List User) (user : User) (email freshToken : String)
    (emailSendFails : Bool) (now : Nat) : List User × Except AppError String :=
  match emailSendFails with
  | true =>
    (updateUser
      (updateUser users user.id (fun u =>
        { u with emailInfo := { isVerified := user.emailInfo.isVerified
                                verificationToken := some (hashData freshToken)
                                verificationExpires := some (addDays 1 now)
                                pendingEmail := some email
                                provider := user.emailInfo.provider } }))
      user.id (fun u =>
        { u with emailInfo := { isVerified := user.emailInfo.isVerified
                                verificationToken := none
                                verificationExpires := none
                                pendingEmail := none
                                provider := user.emailInfo.provider } }),
     Except.error errEmailSendFailed)
  | false =>
    (updateUser users user.id (fun u =>
      { u with emailInfo := { isVerified := user.emailInfo.isVerified
                              verificationToken := some (hashData freshToken)
                              verificationExpires := some (addDays 1 now)
                              pendingEmail := some email
                              provider := user.emailInfo.provider } }),
     Except.ok msgEmailChangeSent)

/-- The fullname/password tail of `updateUserProfile`; the password
composite spreads the `passwordInfo` captured at entry, and the
password-updated message wins over any earlier message. -/
def otherPhase (users : List User) (user : User)
    (updates : UpdateUserProfile) (msg : String) :
    List User × User × String :=
  let apply2 := fun (u : User) =>
    let u1 := match updates.fullname with
              | some f => { u with fullname := f }
              | none => u
    match updates.password with
    | some pw =>
      { u1 with passwordInfo := { hash := some (hashPassword pw)
                                  resetToken := user.passwordInfo.resetToken
                                  resetExpires := user.passwordInfo.resetExpires } }
    | none => u1
  if updates.fullname.isSome || updates.password.isSome then
    (updateUser users user.id apply2, apply2 user,
     if updates.password.isSome then msgPasswordUpdated else msg)
  else (users, user, msg)

/-- `updateUserProfile` from `src/services/UserService.ts`. -/
def updateUserProfile (users : List User) (user : User)
    (updates : UpdateUserProfile) (freshToken : String)
    (emailSendFails : Bool) (now : Nat) :
    List User × Except AppError (User × String) :=
  match conflictPhase users user updates with
  | (users0, Except.error e) => (users0, Except.error e)
  | (users0, Except.ok ()) =>
    match updates.email with
    | some email =>
      if email != user.email then
        match emailPhase users0 user email freshToken emailSendFails now with
        | (users1, Except.error e) => (users1, Except.error e)
        | (users1, Except.ok msg1) =>
          let r := otherPhase users1 user updates msg1
          (r.1, Except.ok (r.2.1, r.2.2))
      else
        let r := otherPhase users0 user updates msgProfileUpdated
        (r.1, Except.ok (r.2.1, r.2.2))
    | none =>
      let r := otherPhase users0 user updates msgProfileUpdated
      (r.1, Except.ok (r.2.1, r.2.2))

/-- `C8`: when a new email address is supplied and the verification-email
send throws, `updateUserProfile` rolls `pendingEmail`,
`verificationToken` and `verificationExpires` back to null and re-raises
the email error. -/
theorem C8_email_rollback (users : List User) (user : User)
    (updates : UpdateUserProfile) (freshToken email : String) (now : Nat)
    (users0 : List User)
    (hemail : updates.email = some email)
    (hne : (email != user.email) = true)
    (hconf : conflictPhase users user updates = (users0, Except.ok ())) :
    (updateUserProfile users user updates freshToken true now).2
      = Except.error errEmailSendFailed ∧
    (∀ x ∈ (updateUserProfile users user updates freshToken true now).1,
      x.id = user.id →
      x.emailInfo.pendingEmail = none ∧
      x.emailInfo.verificationToken = none ∧
      x.emailInfo.verificationExpires = none) := by
  have heq : updateUserProfile users user updates freshToken true now
      = (updateUser
          (updateUser users0 user.id (fun u =>
            { u with emailInfo := { isVerified := user.emailInfo.isVerified
                                    verificationToken := some (hashData freshToken)
                                    verificationExpires := some (addDays 1 now)
                                    pendingEmail := some email
                                    provider := user.emailInfo.provider } }))
          user.id (fun u =>
            { u with emailInfo := { isVerified := user.emailInfo.isVerified
                                    verificationToken := none
                                    verificationExpires := none
                                    pendingEmail := none
                                    provider := user.emailInfo.provider } }),
         Except.error errEmailSendFailed) := by
    unfold updateUserProfile
    rw [hconf]
    dsimp only
    rw [hemail]
    dsimp only
    rw [if_pos hne]
    dsimp only [emailPhase]
  refine ⟨by rw [heq], ?_⟩
  intro x hx hid
  rw [heq] at hx
  obtain ⟨y, hy, hyid, hxy⟩ := mem_updateUser_of_id hx hid
  subst hxy
  exact ⟨rfl, rfl, rfl⟩

/-- Concrete state for the `C8` witness: a verified user changing email
while the email transport fails. -/
def c8NewEmail : String := "new@x.com"

def c8Ft : String := "ft8"

def c8User : User :=
  { id := "u8", fullname := "I", email := "i@x.com", phone := none
    profileImage := none
    emailInfo := { isVerified := true, verificationToken := none
                   verificationExpires := none, pendingEmail := none
                   provider := none }
    passwordInfo := { hash := some (hashPassword c8Ft)
                      resetToken := none, resetExpires := none }
    lockoutInfo := { isLocked := false, lockedUntil := none
                     failedAttemptCount := 0 }
    isActive := true, lastLoginAt := none }

def c8Updates : UpdateUserProfile :=
  { fullname := none, phone := none, email := some c8NewEmail
    password := none, redirectUrl := some "https://x" }

def c8UserAfter : User :=
  { c8User with
    emailInfo := { isVerified := c8User.emailInfo.isVerified
                   verificationToken := none
                   verificationExpires := none
                   pendingEmail := none
                   provider := c8User.emailInfo.provider } }

theorem C8_witness :
    (updateUserProfile [c8User] c8User c8Updates c8Ft true 100).2
      = Except.error errEmailSendFailed ∧
    c8UserAfter.emailInfo.pendingEmail = none ∧
    c8UserAfter.emailInfo.verificationToken = none ∧
    c8UserAfter.emailInfo.verificationExpires = none := by
  have h := C8_email_rollback [c8User] c8User c8Updates c8Ft c8NewEmail 100
      [c8User] rfl (by decide) rfl
  exact ⟨h.1, h.2 c8UserAfter (by decide) (by decide)⟩

/-- `IOAuthUser` from `src/types/user.ts`. -/
structure IOAuthUser where
  email : String
  displayName : String
  avatarUrl : Option String
  provider : Option String
  isVerified : Bool
deriving Repr, DecidableEq

/-- One entry of the GitHub user-emails API response. -/
structure GithubEmailEntry where
  email : String
  primary : Bool
  verified : Bool
deriving Repr, DecidableEq

/-- Outcome of the external `fetch(GITHUB_EMAIL_API)` call: the fetch
itself rejecting, a non-OK HTTP response, or a parsed email list. -/
inductive GithubEmailFetch where
  | fetchFailed
  | httpNotOk (status : Nat)
  | fetched (emails : List GithubEmailEntry)
deriving Repr, DecidableEq

/-- The fields of the passport GitHub profile that `handleGithubAuth`
reads. -/
structure GithubProfile where
  emails : List String
  displayName : Option String
  username : Option String
  photos : List String
deriving Repr, DecidableEq

/-- Error rethrown by the catch block around the GitHub email fetch
(it also swallows the inner "GitHub API error" 400 throw). -/
def errGithubEmailFetch : AppError :=
  { msg := "Unable to retrieve user email from GitHub", code := 400 }

/-- Error when no email could be obtained at all — thrown with code 404
in the source. -/
def errNoGithubEmail : AppError :=
  { msg := "No email found for GitHub user", code := 404 }

def errNoGithubDisplayName : AppError :=
  { msg := "No display name found in GitHub profile", code := 400 }

def providerGithub : String := "github"

/-- `createOAuthUser` from `src/services/OauthService.ts`: return the
account with the same email if one exists, otherwise create a verified
one with no password and zeroed lockout.  `freshId` is the id the store
assigns to a created row. -/
def createOAuthUser (users : List User) (oauth : IOAuthUser)
    (freshId : String) (now : Nat) : List User × User :=
  match users.find? (fun u => u.email == oauth.email) with
  | some existing => (users, existing)
  | none =>
    let newUser : User :=
      { id := freshId, fullname := oauth.displayName, email := oauth.email
        phone := none
        profileImage := oauth.avatarUrl
        emailInfo := { isVerified := true, verificationToken := none
                       verificationExpires := none, pendingEmail := none
                       provider := oauth.provider }
        passwordInfo := { hash := none, resetToken := none, resetExpires := none }
        lockoutInfo := { isLocked := false, lockedUntil := none
                         failedAttemptCount := 0 }
        isActive := true, lastLoginAt := some now }
    (users ++ [newUser], newUser)

/-- The selection over the fetched email list in `handleGithubAuth`:
the entry flagged primary, else the first entry. -/
def githubEmailFromList (emails : List GithubEmailEntry) : Option String :=
  match emails.find? (fun e => e.primary) with
  | some entry => some entry.email
  | none => (emails.head?).map (fun e => e.email)

/-- `handleGithubAuth` from `src/services/OauthService.ts`. -/
def handleGithubAuth (users : List User) (profile : GithubProfile)
    (fetch : GithubEmailFetch) (freshId : String) (now : Nat) :
    List User × Except AppError User :=
  let emailResult : Except AppError (Option String) :=
    match profile.emails.head? with
    | some e => Except.ok (some e)
    | none =>
      match fetch with
      | GithubEmailFetch.fetchFailed => Except.error errGithubEmailFetch
      | GithubEmailFetch.httpNotOk _ => Except.error errGithubEmailFetch
      | GithubEmailFetch.fetched emails => Except.ok (githubEmailFromList emails)
  match emailResult with
  | Except.error e => (users, Except.error e)
  | Except.ok none => (users, Except.error errNoGithubEmail)
  | Except.ok (some email) =>
    match (match profile.displayName with
           | some d => some d
           | none => profile.username) with
    | none => (users, Except.error errNoGithubDisplayName)
    | some displayName =>
      let res := createOAuthUser users
        { email := email, displayName := displayName
          avatarUrl := profile.photos.head?
          provider := some providerGithub, isVerified := true } freshId now
      (res.1, Except.ok res.2)

/-- The account returned by `createOAuthUser` carries the OAuth email. -/
theorem createOAuthUser_email (users : List User) (oauth : IOAuthUser)
    (freshId : String) (now : Nat) :
    ((createOAuthUser users oauth freshId now).2).email = oauth.email := by
  unfold createOAuthUser
  cases hf : users.find? (fun u => u.email == oauth.email) with
  | none => rfl
  | some existing =>
    dsimp only
    have hp0 := List.find?_some hf
    have hp : (existing.email == oauth.email) = true := hp0
    exact eq_of_beq hp

/-- Concrete input refuting `C9`: profile without an email, email-list
fetch succeeds but the list is empty — the failure is `404`, not
`BadRequest(400)`. -/
def c9Name : String := "Dev"

def c9Id : String := "u9"

def c9Profile : GithubProfile :=
  { emails := [], displayName := some c9Name, username := none, photos := [] }

theorem C9_counterexample :
    (handleGithubAuth [] c9Profile (GithubEmailFetch.fetched []) c9Id 50).2
      = Except.error errNoGithubEmail ∧
    errNoGithubEmail.code = 404 ∧ errNoGithubEmail.code ≠ 400 :=
  ⟨rfl, rfl, by decide⟩

/-- `C9` amended: when the provider profile omits an email the list is
fetched with the OAuth token and the primary-flagged entry is selected
(falling back to the first entry); if the fetch itself fails (rejection
or non-OK response) the operation fails with `BadRequest(400)`, but if
the fetch succeeds and yields no email it fails with `NotFound(404)`. -/
theorem C9_amended_github_email (users : List User) (profile : GithubProfile)
    (freshId dn : String) (now : Nat)
    (hnoemail : profile.emails = [])
    (hdn : profile.displayName = some dn) :
    ((handleGithubAuth users profile GithubEmailFetch.fetchFailed freshId now).2
        = Except.error errGithubEmailFetch) ∧
    (∀ s, (handleGithubAuth users profile (GithubEmailFetch.httpNotOk s) freshId now).2
        = Except.error errGithubEmailFetch) ∧
    (∀ emails entry, emails.find? (fun e => e.primary) = some entry →
      ∃ u, (handleGithubAuth users profile (GithubEmailFetch.fetched emails) freshId now).2
          = Except.ok u ∧ u.email = entry.email) ∧
    (∀ emails entry, emails.find? (fun e => e.primary) = none →
      emails.head? = some entry →
      ∃ u, (handleGithubAuth users profile (GithubEmailFetch.fetched emails) freshId now).2
          = Except.ok u ∧ u.email = entry.email) ∧
    ((handleGithubAuth users profile (GithubEmailFetch.fetched []) freshId now).2
        = Except.error errNoGithubEmail) := by
  refine ⟨?_, ?_, ?_, ?_, ?_⟩
  · unfold handleGithubAuth
    rw [hnoemail]
    rfl
  · intro s
    unfold handleGithubAuth
    rw [hnoemail]
    rfl
  · intro emails entry hprim
    have hsel : githubEmailFromList emails = some entry.email := by
      unfold githubEmailFromList
      rw [hprim]
    unfold handleGithubAuth
    rw [hnoemail]
    dsimp only
    rw [hsel, hdn]
    dsimp only
    exact ⟨_, rfl, createOAuthUser_email _ _ _ _⟩
  · intro emails entry hprim hhead
    have hsel : githubEmailFromList emails = some entry.email := by
      unfold githubEmailFromList
      rw [hprim, hhead]
      rfl
    unfold handleGithubAuth
    rw [hnoemail]
    dsimp only
    rw [hsel, hdn]
    dsimp only
    exact ⟨_, rfl, createOAuthUser_email _ _ _ _⟩
  · unfold handleGithubAuth
    rw [hnoemail]
    rfl

/-- Witness for the amended `C9` at concrete inputs: primary selection,
fallback selection, fetch failure, and the empty-list 404. -/
def c9Primary : GithubEmailEntry :=
  { email := "dev@x.com", primary := true, verified := true }

def c9Secondary : GithubEmailEntry :=
  { email := "alt@x.com", primary := false, verified := true }

theorem C9_amended_witness :
    (∃ u, (handleGithubAuth [] c9Profile
        (GithubEmailFetch.fetched [c9Secondary, c9Primary]) c9Id 50).2
        = Except.ok u ∧ u.email = c9Primary.email) ∧
    (∃ u, (handleGithubAuth [] c9Profile
        (GithubEmailFetch.fetched [c9Secondary]) c9Id 50).2
        = Except.ok u ∧ u.email = c9Secondary.email) ∧
    (handleGithubAuth [] c9Profile GithubEmailFetch.fetchFailed c9Id 50).2
      = Except.error errGithubEmailFetch := by
  have h := C9_amended_github_email [] c9Profile c9Id c9Name 50 rfl rfl
  exact ⟨h.2.2.1 [c9Secondary, c9Primary] c9Primary (by decide),
         h.2.2.2.1 [c9Secondary] c9Secondary (by decide) rfl, h.1⟩
